import Mathlib

/-!
Verification of the anki-mcp repository: a shallow embedding of the
Request Bridge (`make_anki_request` in `src/anki/server.py` and
`src/anki/tools/utils.py`), the tool handlers (`add_note`, `update_note`,
and the early-revision `handle_call_tool`), and the batch wrappers.

JSON values are modelled by the inductive `Json`; Python dictionaries by
association lists; the HTTP layer of one call by `HttpBehavior` (the
environment's reaction to the single POST the Bridge performs); exceptions
raised by a handler by `Except String`.
-/

/-- A JSON value, as produced by `response.json()` in the Python source.
Objects are association lists in key order. -/
inductive Json where
  | null : Json
  | bool (b : Bool) : Json
  | num (n : Int) : Json
  | str (s : String) : Json
  | arr (xs : List Json) : Json
  | obj (fields : List (String × Json)) : Json

mutual

/-- Structural equality of JSON values (Python `==` on parsed JSON). -/
def Json.beq : Json → Json → Bool
  | .null, .null => true
  | .bool a, .bool b => a == b
  | .num a, .num b => a == b
  | .str a, .str b => a == b
  | .arr a, .arr b => Json.beqArr a b
  | .obj a, .obj b => Json.beqObj a b
  | _, _ => false

def Json.beqArr : List Json → List Json → Bool
  | [], [] => true
  | x :: xs, y :: ys => Json.beq x y && Json.beqArr xs ys
  | _, _ => false

def Json.beqObj : List (String × Json) → List (String × Json) → Bool
  | [], [] => true
  | kv :: kvs, lw :: lws => kv.1 == lw.1 && Json.beq kv.2 lw.2 && Json.beqObj kvs lws
  | _, _ => false

end

instance : BEq Json := ⟨Json.beq⟩

/-- Python truthiness of a JSON value (`if result["error"]:`, `if not fields:`):
`None`, `False`, `0`, `""`, `[]` and `{}` are falsy. -/
def Json.truthy : Json → Bool
  | .null => false
  | .bool b => b
  | .num n => n != 0
  | .str s => !s.isEmpty
  | .arr xs => !xs.isEmpty
  | .obj fs => !fs.isEmpty

mutual

/-- Python `str()` of a JSON value, used by the handlers' f-strings.
Scalars follow Python (`None`, `True`, `42`, a bare string); composites are
rendered recursively (the claims only ever evaluate it on scalars). -/
def Json.display : Json → String
  | .null => "None"
  | .bool b => cond b "True" "False"
  | .num n => toString n
  | .str s => s
  | .arr xs => "[" ++ Json.displayArr xs ++ "]"
  | .obj fs => "\x7b" ++ Json.displayObj fs ++ "\x7d"

def Json.displayArr : List Json → String
  | [] => ""
  | [x] => Json.display x
  | x :: xs => Json.display x ++ ", " ++ Json.displayArr xs

def Json.displayObj : List (String × Json) → String
  | [] => ""
  | [kv] => kv.1 ++ ": " ++ Json.display kv.2
  | kv :: kvs => kv.1 ++ ": " ++ Json.display kv.2 ++ ", " ++ Json.displayObj kvs

end

/-- Key lookup in a JSON object's field list: `result["error"]` /
`"error" in result` (a Python dict has unique keys; first match). -/
def lookupField (fields : List (String × Json)) (key : String) : Option Json :=
  (fields.find? (fun kv => kv.1 == key)).map (fun kv => kv.2)

/-- Python `d.get(key, default)` on an arguments dict. -/
def dictGet (d : List (String × Json)) (key : String) (dflt : Json) : Json :=
  (lookupField d key).getD dflt

/-! ## The Request Bridge (`make_anki_request`, `src/anki/server.py` lines 11-44) -/

def ANKI_CONNECT_URL : String := "http://localhost:8765"

def ANKI_CONNECT_VERSION : Int := 6

/-- Pre-specified deck name (`src/anki/server.py` line 14). -/
def DEFAULT_DECK_NAME : String := "Default"

/-- Pre-specified model name (`src/anki/server.py` line 15). -/
def DEFAULT_MODEL_NAME : String := "Basic"

/-- The `request_data` dict built by `make_anki_request` (lines 24-30):
`{"action": action, "version": 6}`, plus `"params": params` only when the
`params` dict is truthy, i.e. non-empty. -/
def ankiRequestBody (action : String) (params : List (String × Json)) : Json :=
  if params.isEmpty then
    .obj [("action", .str action), ("version", .num ANKI_CONNECT_VERSION)]
  else
    .obj [("action", .str action), ("version", .num ANKI_CONNECT_VERSION),
          ("params", .obj params)]

/-- The environment's reaction to the single `client.post` a Bridge call
performs: either the post itself raises (connection refused, timeout), or a
response arrives with a status code and a body that `response.json()` either
parses into the `{"result", "error"}` envelope object or fails to parse
(raising with the given message). -/
inductive HttpBehavior where
  | netError (msg : String) : HttpBehavior
  | response (status : Nat) (body : Except String (List (String × Json))) : HttpBehavior

/-- `response.raise_for_status()` raises unless the status is a 2xx success. -/
def is2xx (status : Nat) : Bool :=
  200 ≤ status && status < 300

/-- The stringification of the `httpx.HTTPStatusError` that
`raise_for_status()` raises on a non-2xx status. -/
def raiseForStatusMsg (status : Nat) : String :=
  "HTTP status error " ++ toString status ++ " for url " ++ ANKI_CONNECT_URL

/-- The Bridge's normalised result: the `{"success": True, "result": ...}` /
`{"success": False, "error": ...}` dicts returned by `make_anki_request`. -/
inductive Outcome where
  | success (result : Json) : Outcome
  | failure (error : Json) : Outcome

/-- The try/except body of `make_anki_request` (lines 32-44): any exception
from the post, `raise_for_status` or `.json()` becomes
`{"success": False, "error": str(e)}`; on a parsed body, a truthy `error`
field wins, otherwise `{"success": True, "result": result.get("result")}`. -/
def bridgeOutcome : HttpBehavior → Outcome
  | .netError msg => .failure (.str msg)
  | .response status body =>
    if is2xx status then
      match body with
      | .error msg => .failure (.str msg)
      | .ok result =>
        match lookupField result "error" with
        | some e => if e.truthy then .failure e
                    else .success ((lookupField result "result").getD .null)
        | none => .success ((lookupField result "result").getD .null)
    else .failure (.str (raiseForStatusMsg status))

/-- One HTTP POST performed by the Bridge; its posted body is
`ankiRequestBody action params`. -/
structure AnkiRequest where
  action : String
  params : List (String × Json)

/-- The JSON body the request posts. -/
def AnkiRequest.body (r : AnkiRequest) : Json :=
  ankiRequestBody r.action r.params

/-- `make_anki_request(action, **params)`: builds the request body, performs
exactly one POST, and normalises the response. The first component is the
dict the Python function returns; the second records the single network
request the call performed. -/
def make_anki_request (action : String) (params : List (String × Json))
    (http : HttpBehavior) : Outcome × AnkiRequest :=
  (bridgeOutcome http, ⟨action, params⟩)

/-! ## Tool handlers (`src/anki/tools/add_note.py`, `update_note.py`) -/

/-- The `note` dict built by `add_note` (`src/anki/tools/add_note.py`
lines 17-25): caller fields plus fixed `options.allowDuplicate = False` and
an empty `tags` list. -/
def addNoteJson (deck model : String) (fields : List (String × String)) : Json :=
  .obj [("deckName", .str deck),
        ("modelName", .str model),
        ("fields", .obj (fields.map (fun kv => (kv.1, .str kv.2)))),
        ("options", .obj [("allowDuplicate", .bool false)]),
        ("tags", .arr [])]

/-- `add_note(note_name, fields, deck, model)`
(`src/anki/tools/add_note.py`): validates, builds the note, performs the
`addNote` Bridge call, formats the outcome. `Except.error` is the
`ValueError` the handler raises; the second component records the network
requests issued (empty when validation raised first). The `deck`/`model`
parameters carry `DEFAULT_DECK_NAME`/`DEFAULT_MODEL_NAME` when the caller
omitted them. -/
def add_note (note_name : String) (fields : List (String × String))
    (deck model : String) (http : HttpBehavior) :
    Except String (List String) × List AnkiRequest :=
  if note_name.isEmpty || fields.isEmpty then
    (.error "Missing required fields: name and fields", [])
  else
    let note := addNoteJson deck model fields
    let r := make_anki_request "addNote" [("note", note)] http
    match r.1 with
    | .success res =>
      (.ok ["Successfully added note to deck \x27" ++ deck ++ "\x27 with ID: "
              ++ res.display], [r.2])
    | .failure err =>
      (.ok ["Failed to add note to Anki: " ++ err.display], [r.2])

/-- The `note_data` dict built by `update_note`
(`src/anki/tools/update_note.py` lines 9-16): `id` and `fields` always;
`tags` appended only when the caller passed a (possibly empty) list rather
than the `None` default. -/
def updateNoteData (note_id : Int) (fields : List (String × String))
    (tags : Option (List String)) : List (String × Json) :=
  let note_data := [("id", Json.num note_id),
                    ("fields", Json.obj (fields.map (fun kv => (kv.1, .str kv.2))))]
  match tags with
  | some ts => note_data ++ [("tags", Json.arr (ts.map .str))]
  | none => note_data

/-- `update_note(note_id, fields, tags=None)`
(`src/anki/tools/update_note.py`): builds the update payload, performs the
`updateNote` Bridge call, formats the outcome. It raises nothing, so it
returns the text blocks directly, plus the network request issued. -/
def update_note (note_id : Int) (fields : List (String × String))
    (tags : Option (List String)) (http : HttpBehavior) :
    List String × List AnkiRequest :=
  let r := make_anki_request "updateNote"
             [("note", .obj (updateNoteData note_id fields tags))] http
  match r.1 with
  | .success _ =>
    (["Successfully updated note (ID: " ++ toString note_id ++ ")."], [r.2])
  | .failure err =>
    (["Failed to update note: " ++ err.display], [r.2])

/-! ## The early-revision dispatcher (`handle_call_tool`, `src/anki/server.py`
lines 163-265) and its global notes cache (line 18) -/

/-- A value stored in the global `notes` cache on a successful add-note
(`src/anki/server.py` lines 202-208). -/
structure StoredNote where
  front : Json
  back : Json
  deck : Json
  model : Json
  anki_id : Json

/-- The global `notes: dict[str, dict]` cache; keys are the values taken
from `arguments.get("name")`. -/
abbrev NotesMap : Type := List (Json × StoredNote)

/-- Python dict assignment `notes[note_name] = ...`: replace in place if the
key exists, else append (insertion order preserved). -/
def dictSet (m : NotesMap) (k : Json) (v : StoredNote) : NotesMap :=
  if m.any (fun kv => kv.1 == k) then
    m.map (fun kv => if kv.1 == k then (k, v) else kv)
  else m ++ [(k, v)]

/-- The list-decks success formatting (`src/anki/server.py` line 253):
`f"Available decks in Anki ({len(decks)}):\n" + "\n".join(f"- {deck}" ...)`.
`none` models the `TypeError` Python would raise when the `deckNames` result
is neither a list nor a string (the envelope always carries a list). -/
def formatDecks : Json → Option String
  | .arr decks =>
    some ("Available decks in Anki (" ++ toString decks.length ++ "):\n"
          ++ String.intercalate "\n" (decks.map (fun d => "- " ++ d.display)))
  | .str s =>
    some ("Available decks in Anki (" ++ toString s.length ++ "):\n"
          ++ String.intercalate "\n" (s.toList.map (fun c => "- " ++ String.singleton c)))
  | _ => none

/-- The result of one `handle_call_tool` dispatch: the `ValueError` it
raised or the text blocks it returned, the notes cache after the call, and
the network requests issued. -/
structure ToolCallResult where
  result : Except String (List String)
  notes : NotesMap
  requests : List AnkiRequest

/-- `handle_call_tool(name, arguments)` (`src/anki/server.py` lines
163-265), with the global `notes` cache passed in and returned explicitly.
The `send_resource_list_changed` notification on the success path is a pure
signal to the MCP runtime and is not modelled. -/
def handle_call_tool (name : String) (arguments : Option (List (String × Json)))
    (notes : NotesMap) (http : HttpBehavior) : ToolCallResult :=
  if name == "add-note" then
    let args := arguments.getD []
    if args.isEmpty then ⟨.error "Missing arguments", notes, []⟩
    else
      let note_name := dictGet args "name" .null
      let front := dictGet args "front" .null
      let back := dictGet args "back" .null
      let deck := dictGet args "deck" (.str DEFAULT_DECK_NAME)
      let model := dictGet args "model" (.str DEFAULT_MODEL_NAME)
      if !note_name.truthy || !front.truthy || !back.truthy then
        ⟨.error "Missing required fields: name, front, and back", notes, []⟩
      else
        let note : Json := .obj [("deckName", deck),
                                 ("modelName", model),
                                 ("fields", .obj [("Front", front), ("Back", back)]),
                                 ("options", .obj [("allowDuplicate", .bool false)]),
                                 ("tags", .arr [])]
        let r := make_anki_request "addNote" [("note", note)] http
        match r.1 with
        | .success res =>
          ⟨.ok ["Successfully added note \x27" ++ note_name.display ++ "\x27 to deck \x27"
                  ++ deck.display ++ "\x27 with ID: " ++ res.display],
           dictSet notes note_name ⟨front, back, deck, model, res⟩, [r.2]⟩
        | .failure err =>
          ⟨.ok ["Failed to add note to Anki: " ++ err.display], notes, [r.2]⟩
  else if name == "check-connection" then
    let r := make_anki_request "version" [] http
    match r.1 with
    | .success res =>
      ⟨.ok ["Connected to AnkiConnect v" ++ res.display], notes, [r.2]⟩
    | .failure err =>
      ⟨.ok ["Failed to connect to AnkiConnect: " ++ err.display], notes, [r.2]⟩
  else if name == "list-decks" then
    let r := make_anki_request "deckNames" [] http
    match r.1 with
    | .success res =>
      match formatDecks res with
      | some text => ⟨.ok [text], notes, [r.2]⟩
      | none => ⟨.error "TypeError: deckNames result is not iterable", notes, [r.2]⟩
    | .failure err =>
      ⟨.ok ["Failed to retrieve decks: " ++ err.display], notes, [r.2]⟩
  else ⟨.error ("Unknown tool: " ++ name), notes, []⟩

/-! ## Batch handlers (`add_notes`, `update_notes`) -/

/-- One note payload given to the `add-notes` batch tool. -/
structure NoteSpec where
  name : String
  fields : List (String × String)
  deck : String
  model : String

/-- The single `addNote` request the per-item handler issues for a valid
payload. -/
def addNoteRequest (n : NoteSpec) : AnkiRequest :=
  ⟨"addNote", [("note", addNoteJson n.deck n.model n.fields)]⟩

/-- Modelled from the spec: the batch handler `add_notes` (imported by
`src/anki/tools/__init__.py` but its body is absent from the sources)
"processes each item independently; a failure on one item must not abort
processing of the remaining items", issuing one `addNote` request per note
via the per-item handler and "reporting a per-item outcome list, preserving
input order". `http i` is the HTTP layer's reaction to the i-th item's
call. -/
def add_notes : List NoteSpec → (Nat → HttpBehavior) →
    List (Except String (List String)) × List AnkiRequest
  | [], _ => ([], [])
  | n :: rest, http =>
    let r := add_note n.name n.fields n.deck n.model (http 0)
    let tailRes := add_notes rest (fun i => http (i + 1))
    (r.1 :: tailRes.1, r.2 ++ tailRes.2)

/-- One update payload given to the `update-notes` batch tool. -/
structure UpdateSpec where
  id : Int
  fields : List (String × String)
  tags : Option (List String)

/-- The single `updateNote` request the per-item handler issues. -/
def updateNoteRequest (u : UpdateSpec) : AnkiRequest :=
  ⟨"updateNote", [("note", .obj (updateNoteData u.id u.fields u.tags))]⟩

/-- Modelled from the spec: the batch handler `update_notes` (imported by
`src/anki/tools/__init__.py` but its body is absent from the sources)
issues one `updateNote` request per item via the per-item handler and
reports one outcome per item, in input order, never aborting the batch. -/
def update_notes : List UpdateSpec → (Nat → HttpBehavior) →
    List (List String) × List AnkiRequest
  | [], _ => ([], [])
  | u :: rest, http =>
    let r := update_note u.id u.fields u.tags (http 0)
    let tailRes := update_notes rest (fun i => http (i + 1))
    (r.1 :: tailRes.1, r.2 ++ tailRes.2)

/-! ## Claims about the Request Bridge -/

/-- C7: the request body posted by a Bridge call is exactly
`{"action": action, "version": 6}` when `params` is empty and exactly
`{"action": action, "version": 6, "params": params}` when it is non-empty;
a `"params"` key never appears with an empty mapping. -/
theorem c7_request_body (action : String) (params : List (String × Json)) :
    (params = [] →
      ankiRequestBody action params =
        .obj [("action", .str action), ("version", .num 6)]) ∧
    (params ≠ [] →
      ankiRequestBody action params =
        .obj [("action", .str action), ("version", .num 6),
              ("params", .obj params)]) := by
  constructor
  · intro h
    subst h
    rfl
  · intro h
    cases params with
    | nil => exact absurd rfl h
    | cons kv rest => rfl

theorem c7_request_body_witness :
    ankiRequestBody "deckNames" [] =
      .obj [("action", .str "deckNames"), ("version", .num 6)] ∧
    ankiRequestBody "findNotes" [("query", Json.str "deck:All")] =
      .obj [("action", .str "findNotes"), ("version", .num 6),
            ("params", .obj [("query", Json.str "deck:All")])] :=
  ⟨(c7_request_body "deckNames" []).1 rfl,
   (c7_request_body "findNotes" [("query", Json.str "deck:All")]).2 (by simp)⟩

/-- C1: on a successful HTTP round-trip with a parsed envelope body, a
present, non-null, non-empty `error` string makes the Bridge return
`{success: false, error: <that string>}`; an absent, null or empty `error`
makes it return `{success: true, result: <the body's result field>}`. -/
theorem c1_bridge_envelope (action : String) (params : List (String × Json))
    (status : Nat) (body : List (String × Json)) (h2xx : is2xx status = true) :
    (∀ s, s ≠ "" → lookupField body "error" = some (.str s) →
      (make_anki_request action params (.response status (.ok body))).1 =
        .failure (.str s)) ∧
    (lookupField body "error" = none ∨ lookupField body "error" = some .null ∨
        lookupField body "error" = some (.str "") →
      (make_anki_request action params (.response status (.ok body))).1 =
        .success ((lookupField body "result").getD .null)) := by
  constructor
  · intro s hs he
    simp [make_anki_request, bridgeOutcome, h2xx, he, Json.truthy,
          String.isEmpty_iff, hs]
  · rintro (he | he | he) <;>
      simp [make_anki_request, bridgeOutcome, h2xx, he, Json.truthy,
            String.isEmpty]

theorem c1_bridge_envelope_witness :
    (make_anki_request "addNote" [] (.response 200
        (.ok [("result", Json.null), ("error", Json.str "deck not found")]))).1 =
      .failure (.str "deck not found") ∧
    (make_anki_request "deckNames" [] (.response 200
        (.ok [("result", Json.num 12), ("error", Json.null)]))).1 =
      .success (Json.num 12) := by
  constructor
  · exact (c1_bridge_envelope "addNote" [] 200
      [("result", Json.null), ("error", Json.str "deck not found")] rfl).1
      "deck not found" (by decide) rfl
  · exact (c1_bridge_envelope "deckNames" [] 200
      [("result", Json.num 12), ("error", Json.null)] rfl).2
      (Or.inr (Or.inl rfl))

/-- C2: when the HTTP layer fails — the post raises (connection refused,
timeout), the status is non-2xx, or the body fails to parse as JSON — the
Bridge returns `{success: false, error: <stringified exception>}`; the call
performs a single attempt and, the function being total, no exception
propagates. -/
theorem c2_bridge_http_failure (action : String) (params : List (String × Json)) :
    (∀ msg, (make_anki_request action params (.netError msg)).1 =
        .failure (.str msg)) ∧
    (∀ status body, is2xx status = false →
      (make_anki_request action params (.response status body)).1 =
        .failure (.str (raiseForStatusMsg status))) ∧
    (∀ status msg, is2xx status = true →
      (make_anki_request action params (.response status (.error msg))).1 =
        .failure (.str msg)) ∧
    (∀ http, (make_anki_request action params http).2 = ⟨action, params⟩) := by
  refine ⟨fun msg => rfl, ?_, ?_, fun http => rfl⟩
  · intro status body h
    simp [make_anki_request, bridgeOutcome, h]
  · intro status msg h
    simp [make_anki_request, bridgeOutcome, h]

theorem c2_bridge_http_failure_witness :
    (make_anki_request "version" [] (.netError "connection refused")).1 =
      .failure (.str "connection refused") ∧
    (make_anki_request "version" [] (.response 500 (.ok []))).1 =
      .failure (.str (raiseForStatusMsg 500)) ∧
    (make_anki_request "version" [] (.response 200 (.error "Expecting value"))).1 =
      .failure (.str "Expecting value") :=
  ⟨(c2_bridge_http_failure "version" []).1 "connection refused",
   (c2_bridge_http_failure "version" []).2.1 500 (.ok []) rfl,
   (c2_bridge_http_failure "version" []).2.2.1 200 "Expecting value" rfl⟩

/-! ## Claims about the handlers' error surfacing -/

/-- C3: for each of the four handlers, a Bridge outcome with
`success = false` is turned into an ordinary (non-raising) text result
whose text contains the Bridge's reported error string. -/
theorem c3_handlers_surface_failure (http : HttpBehavior) (e : String)
    (hfail : bridgeOutcome http = .failure (.str e)) :
    (∀ nm fs deck model, nm ≠ "" → fs ≠ ([] : List (String × String)) →
      ∃ t, (add_note nm fs deck model http).1 = .ok [t] ∧
        ∃ p q, t = p ++ e ++ q) ∧
    (∀ note_id fs tags, ∃ t, (update_note note_id fs tags http).1 = [t] ∧
      ∃ p q, t = p ++ e ++ q) ∧
    (∀ notes, ∃ t,
      (handle_call_tool "check-connection" none notes http).result = .ok [t] ∧
        ∃ p q, t = p ++ e ++ q) ∧
    (∀ notes, ∃ t,
      (handle_call_tool "list-decks" none notes http).result = .ok [t] ∧
        ∃ p q, t = p ++ e ++ q) := by
  refine ⟨?_, ?_, ?_, ?_⟩
  · intro nm fs deck model hnm hfs
    refine ⟨"Failed to add note to Anki: " ++ e, ?_,
            "Failed to add note to Anki: ", "", by simp⟩
    have h1 : nm.isEmpty = false := by
      rw [Bool.eq_false_iff]
      intro hc
      exact hnm ((String.isEmpty_iff nm).mp hc)
    have h2 : fs.isEmpty = false := by
      rw [Bool.eq_false_iff]
      intro hc
      exact hfs (List.isEmpty_iff.mp hc)
    simp [add_note, make_anki_request, h1, h2, hfail, Json.display]
  · intro note_id fs tags
    refine ⟨"Failed to update note: " ++ e, ?_,
            "Failed to update note: ", "", by simp⟩
    simp [update_note, make_anki_request, hfail, Json.display]
  · intro notes
    refine ⟨"Failed to connect to AnkiConnect: " ++ e, ?_,
            "Failed to connect to AnkiConnect: ", "", by simp⟩
    simp [handle_call_tool, make_anki_request, hfail, Json.display]
  · intro notes
    refine ⟨"Failed to retrieve decks: " ++ e, ?_,
            "Failed to retrieve decks: ", "", by simp⟩
    simp [handle_call_tool, make_anki_request, hfail, Json.display]

theorem c3_handlers_surface_failure_witness :
    ∃ t, (add_note "n1" [("Front", "Q")] "Default" "Basic"
            (.netError "connection refused")).1 = .ok [t] ∧
      ∃ p q, t = p ++ "connection refused" ++ q := by
  exact (c3_handlers_surface_failure (.netError "connection refused")
    "connection refused" rfl).1 "n1" [("Front", "Q")] "Default" "Basic"
    (by decide) (by decide)

/-- C4: an add-note invocation with an empty/missing note identifier or an
empty/missing fields mapping raises the `ValueError` immediately and issues
no network request at all. -/
theorem c4_add_note_validation (nm : String) (fs : List (String × String))
    (deck model : String) (http : HttpBehavior)
    (h : nm = "" ∨ fs = []) :
    add_note nm fs deck model http =
      (.error "Missing required fields: name and fields", []) := by
  rcases h with h | h
  · subst h
    have h0 : String.isEmpty "" = true := rfl
    simp [add_note, h0]
  · subst h
    simp [add_note]

theorem c4_add_note_validation_witness :
    add_note "" [("Front", "Q")] "Default" "Basic" (.netError "unused") =
      (.error "Missing required fields: name and fields", []) :=
  c4_add_note_validation "" [("Front", "Q")] "Default" "Basic"
    (.netError "unused") (Or.inl rfl)

/-- C5: the note object sent by update-note carries a `"tags"` key exactly
when the caller supplied a tags value: a supplied list (the empty list
included) is sent as `"tags": <list>`, while omission (`None`) leaves the
key out of the posted note entirely. -/
theorem c5_update_note_tags (note_id : Int) (fields : List (String × String))
    (http : HttpBehavior) :
    (∀ tags, (update_note note_id fields (some tags) http).2 =
        [⟨"updateNote", [("note", .obj (updateNoteData note_id fields (some tags)))]⟩] ∧
      lookupField (updateNoteData note_id fields (some tags)) "tags" =
        some (.arr (tags.map .str))) ∧
    ((update_note note_id fields none http).2 =
        [⟨"updateNote", [("note", .obj (updateNoteData note_id fields none))]⟩] ∧
      lookupField (updateNoteData note_id fields (some [])) "tags" =
        some (.arr []) ∧
      lookupField (updateNoteData note_id fields none) "tags" = none) := by
  refine ⟨fun tags => ⟨?_, ?_⟩, ?_, ?_, ?_⟩
  · cases h : bridgeOutcome http <;>
      simp [update_note, make_anki_request, h]
  · simp [updateNoteData, lookupField]
  · cases h : bridgeOutcome http <;>
      simp [update_note, make_anki_request, h]
  · simp [updateNoteData, lookupField]
  · simp [updateNoteData, lookupField]

/-! ## Claim about the batch handlers -/

lemma add_note_requests_valid (n : NoteSpec) (http : HttpBehavior)
    (h1 : n.name ≠ "") (h2 : n.fields ≠ []) :
    (add_note n.name n.fields n.deck n.model http).2 = [addNoteRequest n] := by
  have e1 : n.name.isEmpty = false := by
    rw [Bool.eq_false_iff]
    intro hc
    exact h1 ((String.isEmpty_iff n.name).mp hc)
  have e2 : n.fields.isEmpty = false := by
    rw [Bool.eq_false_iff]
    intro hc
    exact h2 (List.isEmpty_iff.mp hc)
  cases h : bridgeOutcome http <;>
    simp [add_note, make_anki_request, e1, e2, h, addNoteRequest]

lemma update_note_requests (u : UpdateSpec) (http : HttpBehavior) :
    (update_note u.id u.fields u.tags http).2 = [updateNoteRequest u] := by
  cases h : bridgeOutcome http <;>
    simp [update_note, make_anki_request, h, updateNoteRequest]

lemma add_notes_length (items : List NoteSpec) (http : Nat → HttpBehavior) :
    (add_notes items http).1.length = items.length := by
  induction items generalizing http with
  | nil => rfl
  | cons n rest ih => simp [add_notes, ih]

lemma add_notes_requests (items : List NoteSpec) (http : Nat → HttpBehavior)
    (hvalid : ∀ n ∈ items, n.name ≠ "" ∧ n.fields ≠ []) :
    (add_notes items http).2 = items.map addNoteRequest := by
  induction items generalizing http with
  | nil => rfl
  | cons n rest ih =>
    have hn := hvalid n (List.mem_cons_self n rest)
    simp [add_notes, add_note_requests_valid n (http 0) hn.1 hn.2,
          ih (fun i => http (i + 1)) (fun m hm => hvalid m (List.mem_cons_of_mem n hm))]

lemma add_notes_lines (items : List NoteSpec) (http : Nat → HttpBehavior)
    (i : Nat) :
    (add_notes items http).1[i]? =
      (items[i]?).map
        (fun n => (add_note n.name n.fields n.deck n.model (http i)).1) := by
  induction items generalizing http i with
  | nil => simp [add_notes]
  | cons n rest ih =>
    cases i with
    | zero => simp [add_notes]
    | succ j => simpa [add_notes] using ih (fun k => http (k + 1)) j

lemma update_notes_length (ups : List UpdateSpec) (http : Nat → HttpBehavior) :
    (update_notes ups http).1.length = ups.length := by
  induction ups generalizing http with
  | nil => rfl
  | cons u rest ih => simp [update_notes, ih]

lemma update_notes_requests (ups : List UpdateSpec) (http : Nat → HttpBehavior) :
    (update_notes ups http).2 = ups.map updateNoteRequest := by
  induction ups generalizing http with
  | nil => rfl
  | cons u rest ih =>
    simp [update_notes, update_note_requests u (http 0), ih (fun i => http (i + 1))]

lemma update_notes_lines (ups : List UpdateSpec) (http : Nat → HttpBehavior)
    (i : Nat) :
    (update_notes ups http).1[i]? =
      (ups[i]?).map (fun u => (update_note u.id u.fields u.tags (http i)).1) := by
  induction ups generalizing http i with
  | nil => simp [update_notes]
  | cons u rest ih =>
    cases i with
    | zero => simp [update_notes]
    | succ j => simpa [update_notes] using ih (fun k => http (k + 1)) j

/-- C6: `add-notes` issues exactly one `addNote` request per valid note and
`update-notes` exactly one `updateNote` request per update, each reporting
one outcome per item; the i-th outcome is exactly the per-item handler's
outcome for the i-th input under the i-th HTTP reaction (so a Bridge
failure on one item affects no other item), and requests and outcomes keep
the input order. -/
theorem c6_batch_per_item (items : List NoteSpec) (ups : List UpdateSpec)
    (http : Nat → HttpBehavior)
    (hvalid : ∀ n ∈ items, n.name ≠ "" ∧ n.fields ≠ []) :
    ((add_notes items http).1.length = items.length ∧
     (add_notes items http).2 = items.map addNoteRequest ∧
     ∀ i, (add_notes items http).1[i]? =
       (items[i]?).map
         (fun n => (add_note n.name n.fields n.deck n.model (http i)).1)) ∧
    ((update_notes ups http).1.length = ups.length ∧
     (update_notes ups http).2 = ups.map updateNoteRequest ∧
     ∀ i, (update_notes ups http).1[i]? =
       (ups[i]?).map (fun u => (update_note u.id u.fields u.tags (http i)).1)) :=
  ⟨⟨add_notes_length items http, add_notes_requests items http hvalid,
    add_notes_lines items http⟩,
   ⟨update_notes_length ups http, update_notes_requests ups http,
    update_notes_lines ups http⟩⟩

theorem c6_batch_per_item_witness :
    (add_notes [⟨"a", [("Front", "1")], "Default", "Basic"⟩,
                ⟨"b", [("Front", "2")], "Default", "Basic"⟩]
        (fun i => if i = 0 then .netError "down"
                  else .response 200 (.ok [("result", Json.num 7),
                                           ("error", Json.null)]))).1.length = 2 ∧
    (add_notes [⟨"a", [("Front", "1")], "Default", "Basic"⟩,
                ⟨"b", [("Front", "2")], "Default", "Basic"⟩]
        (fun i => if i = 0 then .netError "down"
                  else .response 200 (.ok [("result", Json.num 7),
                                           ("error", Json.null)]))).2 =
      [addNoteRequest ⟨"a", [("Front", "1")], "Default", "Basic"⟩,
       addNoteRequest ⟨"b", [("Front", "2")], "Default", "Basic"⟩] ∧
    (update_notes [⟨5, [("Front", "3")], none⟩]
        (fun _ => .netError "down")).1.length = 1 := by
  have h := c6_batch_per_item
    [⟨"a", [("Front", "1")], "Default", "Basic"⟩,
     ⟨"b", [("Front", "2")], "Default", "Basic"⟩]
    [⟨5, [("Front", "3")], none⟩]
    (fun i => if i = 0 then .netError "down"
              else .response 200 (.ok [("result", Json.num 7),
                                       ("error", Json.null)]))
    (by
      intro n hn
      simp at hn
      rcases hn with rfl | rfl <;> exact ⟨by decide, by decide⟩)
  have h2 := c6_batch_per_item ([] : List NoteSpec) [⟨5, [("Front", "3")], none⟩]
    (fun _ => .netError "down") (by intro n hn; cases hn)
  exact ⟨h.1.1, h.1.2.1, h2.2.1⟩

/-! ## Claims about defaults, idempotence and the notes cache -/

/-- C8: an add-note call that omits `deck`/`model` runs with the compiled-in
defaults `"Default"`/`"Basic"`; the note posted to AnkiConnect carries the
caller's (or defaulted) `deckName`/`modelName`, `options.allowDuplicate =
false` and an empty tags list. -/
theorem c8_add_note_defaults (nm : String) (fs : List (String × String))
    (deck model : String) (http : HttpBehavior)
    (hnm : nm ≠ "") (hfs : fs ≠ []) :
    DEFAULT_DECK_NAME = "Default" ∧ DEFAULT_MODEL_NAME = "Basic" ∧
    (add_note nm fs deck model http).2 =
      [⟨"addNote", [("note", addNoteJson deck model fs)]⟩] ∧
    ∃ L, addNoteJson deck model fs = .obj L ∧
      lookupField L "deckName" = some (.str deck) ∧
      lookupField L "modelName" = some (.str model) ∧
      lookupField L "options" = some (.obj [("allowDuplicate", .bool false)]) ∧
      lookupField L "tags" = some (.arr []) := by
  refine ⟨rfl, rfl, ?_, ?_⟩
  · exact add_note_requests_valid ⟨nm, fs, deck, model⟩ http hnm hfs
  · exact ⟨_, rfl, by simp [lookupField], by simp [lookupField],
           by simp [lookupField], by simp [lookupField]⟩

theorem c8_add_note_defaults_witness :
    (add_note "n1" [("Front", "Q")] DEFAULT_DECK_NAME DEFAULT_MODEL_NAME
        (.netError "down")).2 =
      [⟨"addNote", [("note", addNoteJson "Default" "Basic" [("Front", "Q")])]⟩] :=
  (c8_add_note_defaults "n1" [("Front", "Q")] DEFAULT_DECK_NAME
    DEFAULT_MODEL_NAME (.netError "down") (by decide) (by decide)).2.2.1

/-- C9: with the backend's `deckNames` result fixed, a second list-decks
invocation (run on whatever notes cache the first one left behind) returns
the same formatted text as the first, and the cache is untouched. -/
theorem c9_list_decks_idempotent (decks : List Json) (notes : NotesMap) :
    (handle_call_tool "list-decks" none notes
        (.response 200 (.ok [("result", .arr decks), ("error", .null)]))).result =
      (handle_call_tool "list-decks" none
          (handle_call_tool "list-decks" none notes
            (.response 200 (.ok [("result", .arr decks), ("error", .null)]))).notes
          (.response 200 (.ok [("result", .arr decks), ("error", .null)]))).result ∧
    (handle_call_tool "list-decks" none notes
        (.response 200 (.ok [("result", .arr decks), ("error", .null)]))).notes =
      notes :=
  ⟨rfl, rfl⟩

/-- C10: the early revision's global notes cache is mutated only after a
successful Bridge call: whenever the add-note branch of `handle_call_tool`
raises (missing arguments, missing required fields) or the Bridge reports
`success = false`, the notes mapping after the call equals the one before. -/
theorem c10_notes_cache_unchanged (arguments : Option (List (String × Json)))
    (notes : NotesMap) (http : HttpBehavior) :
    (∀ m, (handle_call_tool "add-note" arguments notes http).result = .error m →
      (handle_call_tool "add-note" arguments notes http).notes = notes) ∧
    (∀ e, bridgeOutcome http = .failure e →
      (handle_call_tool "add-note" arguments notes http).notes = notes) := by
  have hb : ("add-note" == "add-note") = true := rfl
  constructor
  · intro m hm
    revert hm
    unfold handle_call_tool
    simp only [make_anki_request]
    rw [if_pos hb]
    split
    · intro _
      rfl
    · split
      · intro _
        rfl
      · cases ho : bridgeOutcome http with
        | success res =>
          intro hm
          simp at hm
        | failure err =>
          intro _
          rfl
  · intro e he
    unfold handle_call_tool
    simp only [make_anki_request]
    rw [if_pos hb]
    split
    · rfl
    · split
      · rfl
      · rw [he]

theorem c10_notes_cache_unchanged_witness :
    (handle_call_tool "add-note"
        (some [("name", Json.str "n1"), ("front", Json.str "Q"),
               ("back", Json.str "A")])
        [] (.netError "down")).notes = [] :=
  (c10_notes_cache_unchanged
    (some [("name", Json.str "n1"), ("front", Json.str "Q"),
           ("back", Json.str "A")])
    [] (.netError "down")).2 (.str "down") rfl
